import Mathlib

/-!
Shallow embedding of the NP 4427 self-assessment app (`src/app.py`):
the model loader (sheet lookup, required-column validation, weight
coercion) and the scoring pass (per-row rating lookup, per-pillar
aggregation, global weighted level, interpretation, diagnostic
fractions).  Reals that the Python code handles as floats are modelled
as rationals; a pandas `NaN` cell or value is modelled as `Option.none`.
-/

set_option autoImplicit false

namespace NP4427

/-- The sheet name constant `SHEET_NAME` (app.py line 21). -/
def SHEET_NAME : String := "Checklist & Autoavaliação"

/-- Function `interpret_level` (app.py lines 26-31), the classification of a
defined global level into a qualitative band. -/
def interpret_level (x : ℚ) : String :=
  if x < 2 then "Inicial"
  else if x < 3 then "Básico"
  else if x < 4 then "Padronizado"
  else if x ≤ 4.5 then "Gerido"
  else "Otimizado"

/-- A loaded requirement row, after the weight column has been
normalised (the columns used by the app; `pillar = none` models a
null/NaN cell in the `Pilar / Dimensão` column). -/
structure Row where
  pillar : Option String
  code : String
  requisito : String
  descricao : String
  peso : ℚ
  deriving DecidableEq, Repr

/-- A raw sheet row before weight normalisation: the weight cell either
parsed as a number (`some q`) or did not (`none`, pandas `NaN` after
`to_numeric(errors="coerce")`). -/
structure RawRow where
  pillar : Option String
  code : String
  requisito : String
  descricao : String
  pesoCell : Option ℚ
  deriving DecidableEq, Repr

/-- A parsed sheet: its column names and its typed rows. -/
structure Sheet where
  cols : List String
  rawRows : List RawRow
  deriving DecidableEq, Repr

/-- A parsed workbook: named sheets (`pd.ExcelFile` view). -/
abbrev Workbook := List (String × Sheet)

/-- The list `required` of mandatory column names (app.py line 92). -/
def required : List String :=
  ["Pilar / Dimensão", "Código", "Requisito (NP 4427)",
   "Descrição / Pergunta de Avaliação", "Peso (%)"]

/-- Errors of the load path: the sheet-missing `ValueError` of
`read_checklist_from_url` / `read_checklist_from_bytes` (app.py lines
38-41 and 47-50), carrying the sheet name it reports, and the
missing-columns error (`SchemaError` in the spec, app.py lines 93-96),
carrying the list `miss` of missing column names. -/
inductive LoadError where
  | sheetNotFound (sheetName : String)
  | schemaError (missing : List String)
  deriving DecidableEq, Repr

/-- Effect of `pd.to_numeric(..., errors="coerce").fillna(0.0)` on one weight
cell (app.py line 98): a cell that did not parse as a number becomes
`0.0`; a numeric cell is kept unchanged. -/
def coerceWeight (cell : Option ℚ) : ℚ :=
  cell.getD 0

/-- Normalise one raw row into a `Row` (weight coercion of line 98). -/
def normRow (rr : RawRow) : Row :=
  ⟨rr.pillar, rr.code, rr.requisito, rr.descricao, coerceWeight rr.pesoCell⟩

/-- The load pipeline: find the sheet named `SHEET_NAME` (lines 38-41 /
47-50), validate the required columns (lines 92-96), then normalise the
weight column (line 98).  A fatal error halts processing (`st.stop()`),
modelled by `Except.error`. -/
def load (wb : Workbook) : Except LoadError (List Row) :=
  match wb.find? (fun s => s.1 = SHEET_NAME) with
  | none => .error (.sheetNotFound SHEET_NAME)
  | some s =>
      match required.filter (fun c => c ∉ s.2.cols) with
      | [] => .ok (s.2.rawRows.map normRow)
      | miss => .error (.schemaError miss)

/-- List `pillars` (app.py line 99): the distinct non-null values of the
pillar column. -/
def pillars (rows : List Row) : List String :=
  (rows.filterMap Row.pillar).dedup

/-- The string a pillar cell shows when interpolated into the f-string
key of app.py line 127 / 147: Python renders a NaN cell as `"nan"`. -/
def pillarToStr (p : Option String) : String :=
  match p with
  | some s => s
  | none => "nan"

/-- The composite key `f"{pillar}::{codigo}"` of app.py lines 127 and
147. -/
def keyOf (r : Row) : String :=
  pillarToStr r.pillar ++ "::" ++ r.code

/-- The `respostas` mapping: keys are the f-string keys, values the
selected levels. -/
abbrev Respostas := List (String × ℚ)

/-- Lookup `respostas.get(key, default)` with a missing key reported as
`none` (the `np.nan` default of app.py line 147). -/
def getResp (resp : List (String × ℚ)) (k : String) : Option ℚ :=
  (resp.find? (fun kv => kv.1 = k)).map Prod.snd

/-- Column `Nível` of `df_calc` for one row (app.py line 147): the
rating looked up by the row key, `NaN` (here `none`) when absent. -/
def nivel (resp : List (String × ℚ)) (r : Row) : Option ℚ :=
  getResp resp (keyOf r)

/-- Column `Pontuação` for one row (app.py line 148): `Nível * Peso`,
`NaN` when the rating is missing. -/
def pontuacao (resp : List (String × ℚ)) (r : Row) : Option ℚ :=
  (nivel resp r).map (fun v => v * r.peso)

/-- The rows the form renders (app.py lines 119-120): for each distinct
non-null pillar, the rows whose pillar equals it. -/
def formRows (rows : List Row) : List Row :=
  (pillars rows).flatMap (fun p => rows.filter (fun r => r.pillar = some p))

/-- The `respostas` dict as the form builds it (app.py lines 133-134):
one entry per rendered row, keyed by `keyOf`, value given by the slider
(`slider r`, whose widget default is `3`). -/
def formResp (rows : List Row) (slider : Row → ℚ) : List (String × ℚ) :=
  (formRows rows).map (fun r => (keyOf r, slider r))

/-- The rows of a pillar group of `df_calc.groupby("Pilar / Dimensão",
dropna=True)` (app.py line 150): rows with a NaN pillar belong to no
group. -/
def rowsOfPillar (rows : List Row) (p : String) : List Row :=
  rows.filter (fun r => r.pillar = some p)

/-- Column `Média` of a pillar group (app.py line 151): pandas mean of the
`Nível` column, skipping NaN, itself NaN when no value is defined. -/
def media (rows : List Row) (resp : List (String × ℚ)) (p : String) : Option ℚ :=
  let rated := (rowsOfPillar rows p).filterMap (nivel resp)
  if rated = [] then none else some (rated.sum / rated.length)

/-- Column `Peso` of a pillar group (app.py line 152): sum of `Peso (%)` over
every row of the group. -/
def pesoPilar (rows : List Row) (p : String) : ℚ :=
  ((rowsOfPillar rows p).map Row.peso).sum

/-- Column `Pontuação` of a pillar group (app.py line 153): pandas sum of the
`Pontuação` column, which skips NaN. -/
def pontuacaoPilar (rows : List Row) (resp : List (String × ℚ)) (p : String) : ℚ :=
  ((rowsOfPillar rows p).filterMap (pontuacao resp)).sum

/-- Column `Itens` of a pillar group (app.py line 154): pandas count of the
`Nível` column, which counts only non-NaN entries. -/
def itens (rows : List Row) (resp : List (String × ℚ)) (p : String) : ℕ :=
  ((rowsOfPillar rows p).filterMap (nivel resp)).length

/-- Value `soma_pesos` (app.py line 157): sum of `Peso (%)` over all rows. -/
def soma_pesos (rows : List Row) : ℚ :=
  (rows.map Row.peso).sum

/-- Value `np.nansum(df_calc["Nível"] * df_calc["Peso (%)"])` (app.py line
158): NaN products (missing ratings) count as `0`. -/
def nansum_pontuacao (rows : List Row) (resp : List (String × ℚ)) : ℚ :=
  (rows.map (fun r => (pontuacao resp r).getD 0)).sum

/-- Value `nivel_global` (app.py line 158): the weighted quotient when
`soma_pesos` is truthy (nonzero), NaN (`none`) otherwise. -/
def nivel_global (rows : List Row) (resp : List (String × ℚ)) : Option ℚ :=
  if soma_pesos rows = 0 then none
  else some (nansum_pontuacao rows resp / soma_pesos rows)

/-- The interpretation of an optional global level (app.py line 159):
`interpret_level` on a defined value, the sentinel `"—"` on NaN. -/
def interpOf (g : Option ℚ) : String :=
  match g with
  | some x => interpret_level x
  | none => "—"

/-- Value `interp` (app.py line 159) as a function of the inputs. -/
def interp (rows : List Row) (resp : List (String × ℚ)) : String :=
  interpOf (nivel_global rows resp)

/-- The boolean pandas comparison `Nível >= 4` for one row (app.py line
167): NaN compares `False`. -/
def ge4 (resp : List (String × ℚ)) (r : Row) : Bool :=
  match nivel resp r with
  | some v => 4 ≤ v
  | none => false

/-- The boolean pandas comparison `Nível <= 2` for one row (app.py line
168): NaN compares `False`. -/
def le2 (resp : List (String × ℚ)) (r : Row) : Bool :=
  match nivel resp r with
  | some v => v ≤ 2
  | none => false

/-- Value of `(df_calc["Nível"]>=4).mean()` (app.py line 167): the mean of the
boolean column over ALL rows, NaN on an empty frame. -/
def frac_ge4 (rows : List Row) (resp : List (String × ℚ)) : Option ℚ :=
  if rows = [] then none
  else some ((rows.countP (ge4 resp) : ℚ) / rows.length)

/-- Value of `(df_calc["Nível"]<=2).mean()` (app.py line 168). -/
def frac_le2 (rows : List Row) (resp : List (String × ℚ)) : Option ℚ :=
  if rows = [] then none
  else some ((rows.countP (le2 resp) : ℚ) / rows.length)

/-- Modelled from the spec's words, for comparison with the code's
`nansum_pontuacao`: "the sum over rated rows of (rating × weight)". -/
def specNumerator (rows : List Row) (resp : List (String × ℚ)) : ℚ :=
  ((rows.filter (fun r => (nivel resp r).isSome)).map
    (fun r => (nivel resp r).getD 0 * r.peso)).sum

/-- Modelled from the spec's words, for comparison with the code's
`media`: the mean over only the rows of the pillar that have a defined
rating, undefined when there is none. -/
def specMeanPilar (rows : List Row) (resp : List (String × ℚ)) (p : String) : Option ℚ :=
  let rd := rows.filter (fun r => decide (r.pillar = some p) && (nivel resp r).isSome)
  if rd = [] then none
  else some ((rd.map (fun r => (nivel resp r).getD 0)).sum / rd.length)

/-- Modelled from the spec's words, for comparison with the code's
`frac_ge4`: the fraction, among only the rows with a defined rating, of
rows whose rating is at least 4. -/
def specFracGe4 (rows : List Row) (resp : List (String × ℚ)) : Option ℚ :=
  let rated := rows.filter (fun r => (nivel resp r).isSome)
  if rated = [] then none
  else some ((rated.countP (ge4 resp) : ℚ) / rated.length)

/-- Modelled from the spec's words, for comparison with the code's
`frac_le2`: the fraction, among only the rows with a defined rating, of
rows whose rating is at most 2. -/
def specFracLe2 (rows : List Row) (resp : List (String × ℚ)) : Option ℚ :=
  let rated := rows.filter (fun r => (nivel resp r).isSome)
  if rated = [] then none
  else some ((rated.countP (le2 resp) : ℚ) / rated.length)

/-! ### Helper lemmas -/

theorem getResp_nil (k : String) : getResp [] k = none := rfl

theorem load_eq_of_find? (wb : Workbook) (s : String × Sheet)
    (hf : wb.find? (fun e => e.1 = SHEET_NAME) = some s) :
    load wb =
      match required.filter (fun c => c ∉ s.2.cols) with
      | [] => Except.ok (s.2.rawRows.map normRow)
      | miss => Except.error (LoadError.schemaError miss) := by
  rw [load, hf]

theorem nivel_nil (r : Row) : nivel [] r = none := rfl

theorem nansum_pontuacao_nil_resp (rows : List Row) : nansum_pontuacao rows [] = 0 := by
  induction rows with
  | nil => rfl
  | cons hd tl ih =>
      simp only [nansum_pontuacao, List.map_cons, List.sum_cons] at ih ⊢
      simp [pontuacao, nivel_nil, ih]

theorem nansum_eq_specNumerator (rows : List Row) (resp : List (String × ℚ)) :
    nansum_pontuacao rows resp = specNumerator rows resp := by
  induction rows with
  | nil => rfl
  | cons hd tl ih =>
      have hstep : nansum_pontuacao (hd :: tl) resp
          = (pontuacao resp hd).getD 0 + nansum_pontuacao tl resp := by
        simp [nansum_pontuacao]
      rw [hstep, ih]
      cases h : nivel resp hd with
      | none =>
          have h1 : (pontuacao resp hd).getD 0 = 0 := by simp [pontuacao, h]
          have h2 : specNumerator (hd :: tl) resp = specNumerator tl resp := by
            simp [specNumerator, List.filter_cons, h]
          rw [h1, h2, zero_add]
      | some v =>
          have h1 : (pontuacao resp hd).getD 0 = v * hd.peso := by simp [pontuacao, h]
          have h2 : specNumerator (hd :: tl) resp = v * hd.peso + specNumerator tl resp := by
            simp [specNumerator, List.filter_cons, h]
          rw [h1, h2]

theorem filterMap_nivel_eq (resp : List (String × ℚ)) (l : List Row) :
    l.filterMap (nivel resp) =
      (l.filter (fun r => (nivel resp r).isSome)).map (fun r => (nivel resp r).getD 0) := by
  induction l with
  | nil => rfl
  | cons hd tl ih => cases h : nivel resp hd <;> simp [List.filter_cons, h, ih]

theorem sum_map_filter_split {α : Type} (f : α → ℚ) (q : α → Bool) (l : List α) :
    (l.map f).sum = ((l.filter q).map f).sum + ((l.filter (fun a => !q a)).map f).sum := by
  induction l with
  | nil => simp
  | cons hd tl ih =>
      cases h : q hd <;> simp [List.filter_cons, h, ih] <;> ring

/-! ### Claims -/

/-- C1: the global weighted level equals the sum over rated rows of
(rating × weightPercent) divided by the sum of weightPercent over ALL
rows, and it is undefined (NaN) exactly when that denominator is
zero. -/
theorem C1_global_weighted_level (rows : List Row) (resp : List (String × ℚ)) :
    ((rows.map Row.peso).sum = 0 → nivel_global rows resp = none) ∧
    ((rows.map Row.peso).sum ≠ 0 →
      nivel_global rows resp = some (specNumerator rows resp / (rows.map Row.peso).sum)) := by
  constructor
  · intro h
    simp [nivel_global, soma_pesos, h]
  · intro h
    simp [nivel_global, soma_pesos, h, nansum_eq_specNumerator]

/-- Witness for C1: a single zero-weight rated row gives an undefined
global level; the spec's worked scenario (weights 60/40, ratings 4/2)
gives the defined quotient. -/
theorem C1_global_weighted_level_witness :
    nivel_global [⟨some "P", "A", "", "", 0⟩] [("P::A", 4)] = none ∧
    nivel_global [⟨some "P1", "A", "", "", 60⟩, ⟨some "P1", "B", "", "", 40⟩]
        [("P1::A", 4), ("P1::B", 2)] =
      some (specNumerator [⟨some "P1", "A", "", "", 60⟩, ⟨some "P1", "B", "", "", 40⟩]
          [("P1::A", 4), ("P1::B", 2)] /
        (([⟨some "P1", "A", "", "", 60⟩, ⟨some "P1", "B", "", "", 40⟩] : List Row).map
            Row.peso).sum) := by
  constructor
  · exact (C1_global_weighted_level _ _).1 (by norm_num)
  · exact (C1_global_weighted_level _ _).2 (by norm_num)

/-- C2: `interpret_level` classifies the five bands as documented, with
boundaries 2, 3, 4 going to the higher band, 4.5 still "Gerido", values
above 4.5 "Otimizado", and an undefined level rendered as the sentinel
"—". -/
theorem C2_interpret_level_bands (x : ℚ) :
    (x < 2 → interpret_level x = "Inicial") ∧
    (2 ≤ x → x < 3 → interpret_level x = "Básico") ∧
    (3 ≤ x → x < 4 → interpret_level x = "Padronizado") ∧
    (4 ≤ x → x ≤ 4.5 → interpret_level x = "Gerido") ∧
    ((4.5 : ℚ) < x → interpret_level x = "Otimizado") ∧
    interpOf (some x) = interpret_level x ∧
    interpOf none = "—" := by
  unfold interpret_level interpOf
  refine ⟨?_, ?_, ?_, ?_, ?_, rfl, rfl⟩ <;> intros <;> split_ifs <;>
    first
      | rfl
      | (exfalso; norm_num at *; linarith)

/-- Witness for C2: the boundary values and a value in each band. -/
theorem C2_interpret_level_bands_witness :
    interpret_level 1 = "Inicial" ∧ interpret_level 2 = "Básico" ∧
    interpret_level 3 = "Padronizado" ∧ interpret_level 4 = "Gerido" ∧
    interpret_level 4.5 = "Gerido" ∧ interpret_level 5 = "Otimizado" ∧
    interpOf none = "—" :=
  ⟨(C2_interpret_level_bands 1).1 (by norm_num),
   (C2_interpret_level_bands 2).2.1 (by norm_num) (by norm_num),
   (C2_interpret_level_bands 3).2.2.1 (by norm_num) (by norm_num),
   (C2_interpret_level_bands 4).2.2.2.1 (by norm_num) (by norm_num),
   (C2_interpret_level_bands 4.5).2.2.2.1 (by norm_num) (by norm_num),
   (C2_interpret_level_bands 5).2.2.2.2.1 (by norm_num),
   (C2_interpret_level_bands 0).2.2.2.2.2.2⟩

/-- C3: the per-pillar mean is the mean over only the pillar's rows
with a defined rating (undefined when there is none), while the
per-pillar weight sums every row of the pillar — rated or not. -/
theorem C3_pillar_aggregates (rows : List Row) (resp : List (String × ℚ)) (p : String) :
    media rows resp p = specMeanPilar rows resp p ∧
    pesoPilar rows p =
      (((rowsOfPillar rows p).filter (fun r => (nivel resp r).isSome)).map Row.peso).sum +
      (((rowsOfPillar rows p).filter (fun r => !(nivel resp r).isSome)).map Row.peso).sum := by
  constructor
  · have hF : (rowsOfPillar rows p).filter (fun r => (nivel resp r).isSome) =
        rows.filter (fun r => decide (r.pillar = some p) && (nivel resp r).isSome) := by
      rw [rowsOfPillar, List.filter_filter]
      exact List.filter_congr (fun a _ => Bool.and_comm _ _)
    unfold media specMeanPilar
    rw [filterMap_nivel_eq, hF]
    simp [List.map_eq_nil_iff]
  · exact sum_map_filter_split Row.peso (fun r => (nivel resp r).isSome) (rowsOfPillar rows p)

/-- Counterexample to C4: one row whose weight is 100 and an empty
rating mapping; `np.nansum` of an all-NaN column is `0.0`, so the
global level is `0`, defined, and the interpretation is "Inicial", not
the sentinel "—". -/
theorem C4_counterexample :
    nivel_global [⟨none, "A", "", "", 100⟩] [] ≠ none ∧
    interp [⟨none, "A", "", "", 100⟩] [] ≠ "—" ∧
    nivel_global [⟨none, "A", "", "", 100⟩] [] = some 0 ∧
    interp [⟨none, "A", "", "", 100⟩] [] = "Inicial" := by
  have hg : nivel_global [⟨none, "A", "", "", 100⟩] [] = some 0 := by
    simp [nivel_global, soma_pesos, nansum_pontuacao, pontuacao, nivel_nil]
  have hi : interp [⟨none, "A", "", "", 100⟩] [] = "Inicial" := by
    rw [interp, hg]
    norm_num [interpOf, interpret_level]
  refine ⟨by rw [hg]; simp, by rw [hi]; decide, hg, hi⟩

/-- C4 (amended): with an empty rating mapping the global level is `0`
(interpreted "Inicial") whenever the total weight is nonzero; it is
undefined with the sentinel "—" only when the total weight is zero. -/
theorem C4_empty_ratings (rows : List Row) :
    (soma_pesos rows ≠ 0 → nivel_global rows [] = some 0 ∧ interp rows [] = "Inicial") ∧
    (soma_pesos rows = 0 → nivel_global rows [] = none ∧ interp rows [] = "—") := by
  constructor
  · intro h
    have hg : nivel_global rows [] = some 0 := by
      simp [nivel_global, h, nansum_pontuacao_nil_resp]
    refine ⟨hg, ?_⟩
    rw [interp, hg]
    norm_num [interpOf, interpret_level]
  · intro h
    have hg : nivel_global rows [] = none := by simp [nivel_global, h]
    exact ⟨hg, by rw [interp, hg]; rfl⟩

/-- Witness for C4 (amended): a positive-weight row and a zero-weight
row, each with no ratings supplied. -/
theorem C4_empty_ratings_witness :
    (nivel_global [⟨some "P", "B", "", "", 50⟩] [] = some 0 ∧
      interp [⟨some "P", "B", "", "", 50⟩] [] = "Inicial") ∧
    (nivel_global [⟨some "P", "C", "", "", 0⟩] [] = none ∧
      interp [⟨some "P", "C", "", "", 0⟩] [] = "—") :=
  ⟨(C4_empty_ratings _).1 (by norm_num [soma_pesos]),
   (C4_empty_ratings _).2 (by norm_num [soma_pesos])⟩

/-- Counterexample to C5: a weight cell holding the number `-1` parses,
is not coerced, and survives the load, so a loaded row can carry a
negative weight. -/
theorem C5_counterexample :
    load [(SHEET_NAME, ⟨required, [⟨some "P", "A", "r", "d", some (-1)⟩]⟩)] =
      Except.ok [⟨some "P", "A", "r", "d", -1⟩] ∧
    ¬ ∀ r ∈ [(⟨some "P", "A", "r", "d", -1⟩ : Row)], 0 ≤ r.peso := by
  refine ⟨rfl, fun h => ?_⟩
  have h1 := h _ (List.mem_singleton_self _)
  norm_num at h1

/-- C5 (amended): a non-numeric weight cell is coerced to `0.0` with no
error, and after a successful load every row's weight is nonnegative
provided every numeric weight cell of the source is nonnegative
(numeric negatives are preserved, not clamped). -/
theorem C5_weight_coercion (wb : Workbook) (rows : List Row)
    (hld : load wb = Except.ok rows)
    (hcells : ∀ s ∈ wb, ∀ rr ∈ s.2.rawRows, ∀ q : ℚ, rr.pesoCell = some q → 0 ≤ q) :
    coerceWeight none = 0 ∧ ∀ r ∈ rows, 0 ≤ r.peso := by
  refine ⟨rfl, ?_⟩
  rcases hf : wb.find? (fun e => e.1 = SHEET_NAME) with _ | s
  · rw [load, hf] at hld
    exact absurd hld (by simp)
  · rw [load_eq_of_find? wb s hf] at hld
    rcases hm : required.filter (fun c => c ∉ s.2.cols) with _ | ⟨c, cs⟩
    · rw [hm] at hld
      simp only [Except.ok.injEq] at hld
      subst hld
      intro r hr
      rcases List.mem_map.mp hr with ⟨rr, hrr, hnorm⟩
      have hs : s ∈ wb := List.mem_of_find?_eq_some hf
      have hpeso : r.peso = coerceWeight rr.pesoCell := by rw [← hnorm]; rfl
      rw [hpeso]
      cases hcell : rr.pesoCell with
      | none => simp [coerceWeight]
      | some q =>
          have := hcells s hs rr hrr q hcell
          simpa [coerceWeight, hcell] using this
    · rw [hm] at hld
      exact absurd hld (by simp)

/-- Witness for C5 (amended): a sheet with one unparsable weight cell
(loaded as `0`) and one numeric nonnegative cell. -/
theorem C5_weight_coercion_witness :
    coerceWeight none = 0 ∧
    ∀ r ∈ [(⟨some "P", "A", "r", "d", 0⟩ : Row), ⟨some "P", "B", "r", "d", 7⟩], 0 ≤ r.peso := by
  refine C5_weight_coercion
    [(SHEET_NAME, ⟨required, [⟨some "P", "A", "r", "d", none⟩, ⟨some "P", "B", "r", "d", some 7⟩]⟩)]
    [⟨some "P", "A", "r", "d", 0⟩, ⟨some "P", "B", "r", "d", 7⟩] rfl ?_
  intro s hs rr hrr q hq
  simp only [List.mem_singleton] at hs
  subst hs
  simp only [List.mem_cons, List.not_mem_nil, or_false] at hrr
  rcases hrr with h1 | h1 <;> subst h1
  · exact absurd hq (by simp)
  · have hq7 : (7 : ℚ) = q := by simpa using hq
    rw [← hq7]
    norm_num

/-- C6: when the sheet is present but one or more required columns are
absent, the load fails with the schema error carrying exactly the list
of missing column names, and no rows are produced. -/
theorem C6_schema_error (wb : Workbook) (s : String × Sheet)
    (hf : wb.find? (fun e => e.1 = SHEET_NAME) = some s)
    (hm : required.filter (fun c => c ∉ s.2.cols) ≠ []) :
    load wb = Except.error (LoadError.schemaError (required.filter (fun c => c ∉ s.2.cols))) ∧
    (∀ c, c ∈ required.filter (fun c => c ∉ s.2.cols) ↔ c ∈ required ∧ c ∉ s.2.cols) ∧
    ∀ rows, load wb ≠ Except.ok rows := by
  have hload : load wb =
      Except.error (LoadError.schemaError (required.filter (fun c => c ∉ s.2.cols))) := by
    rw [load_eq_of_find? wb s hf]
    rcases h : required.filter (fun c => c ∉ s.2.cols) with _ | ⟨c, cs⟩
    · exact absurd h hm
    · rfl
  refine ⟨hload, fun c => ?_, fun rows hok => ?_⟩
  · simp [List.mem_filter]
  · rw [hload] at hok
    exact absurd hok (by simp)

/-- Witness for C6: a sheet having only the `Código` column; the other
four required columns are reported missing, in order. -/
theorem C6_schema_error_witness :
    load [(SHEET_NAME, ⟨["Código"], []⟩)] =
      Except.error (LoadError.schemaError
        ["Pilar / Dimensão", "Requisito (NP 4427)",
         "Descrição / Pergunta de Avaliação", "Peso (%)"]) ∧
    ∀ rows, load [(SHEET_NAME, ⟨["Código"], []⟩)] ≠ Except.ok rows := by
  have h := C6_schema_error [(SHEET_NAME, ⟨["Código"], []⟩)] (SHEET_NAME, ⟨["Código"], []⟩)
    rfl (by decide)
  exact ⟨h.1.trans rfl, h.2.2⟩

/-- C7: when no sheet of the workbook is named `SHEET_NAME`, the load
fails with the sheet-not-found error naming that sheet, and no rows are
produced. -/
theorem C7_sheet_not_found (wb : Workbook) (h : ∀ s ∈ wb, s.1 ≠ SHEET_NAME) :
    load wb = Except.error (LoadError.sheetNotFound SHEET_NAME) ∧
    ∀ rows, load wb ≠ Except.ok rows := by
  have hf : wb.find? (fun e => e.1 = SHEET_NAME) = none := by
    rw [List.find?_eq_none]
    intro x hx
    simpa using h x hx
  have hload : load wb = Except.error (LoadError.sheetNotFound SHEET_NAME) := by
    rw [load, hf]
  exact ⟨hload, fun rows hok => by rw [hload] at hok; exact absurd hok (by simp)⟩

/-- Witness for C7: a workbook whose only sheet has another name. -/
theorem C7_sheet_not_found_witness :
    load [("Outra", ⟨[], []⟩)] = Except.error (LoadError.sheetNotFound SHEET_NAME) ∧
    ∀ rows, load [("Outra", ⟨[], []⟩)] ≠ Except.ok rows :=
  C7_sheet_not_found [("Outra", ⟨[], []⟩)] (by decide)

/-- Counterexample to C8: with an empty rating mapping the row's key is
absent and the scoring pass records NaN (`none`) for its `Nível`, not
the default `3`. -/
theorem C8_counterexample :
    getResp [] (keyOf ⟨some "P", "A", "", "", 10⟩) = none ∧
    nivel [] ⟨some "P", "A", "", "", 10⟩ = none ∧
    nivel [] ⟨some "P", "A", "", "", 10⟩ ≠ some 3 := by
  refine ⟨rfl, rfl, ?_⟩
  simp [nivel_nil]

/-- C8 (amended): a row whose key is absent from the rating mapping is
treated as missing, not defaulted to 3 — its `Nível` is NaN, it adds
zero to the global weighted sum, and it is not counted among the rated
items of its pillar (the value 3 is only the form widget's initial
slider value). -/
theorem C8_missing_key_is_nan (resp : List (String × ℚ)) (r : Row)
    (h : getResp resp (keyOf r) = none) :
    nivel resp r = none ∧
    (pontuacao resp r).getD 0 = 0 ∧
    (∀ rows, nansum_pontuacao (r :: rows) resp = nansum_pontuacao rows resp) ∧
    ∀ rows p, itens (r :: rows) resp p = itens rows resp p := by
  have hn : nivel resp r = none := h
  refine ⟨hn, by simp [pontuacao, hn], fun rows => by simp [nansum_pontuacao, pontuacao, hn],
    fun rows p => ?_⟩
  unfold itens rowsOfPillar
  rcases hdec : decide (r.pillar = some p) with _ | _
  · simp [List.filter_cons, hdec]
  · simp [List.filter_cons, hdec, List.filterMap_cons, hn]

/-- Witness for C8 (amended): a nonempty mapping whose only key is
another row's key. -/
theorem C8_missing_key_is_nan_witness :
    nivel [("P::B", 5)] ⟨some "P", "A", "", "", 10⟩ = none ∧
    (pontuacao [("P::B", 5)] ⟨some "P", "A", "", "", 10⟩).getD 0 = 0 ∧
    (∀ rows, nansum_pontuacao (⟨some "P", "A", "", "", 10⟩ :: rows) [("P::B", 5)] =
      nansum_pontuacao rows [("P::B", 5)]) ∧
    ∀ rows p, itens (⟨some "P", "A", "", "", 10⟩ :: rows) [("P::B", 5)] p =
      itens rows [("P::B", 5)] p :=
  C8_missing_key_is_nan [("P::B", 5)] ⟨some "P", "A", "", "", 10⟩ rfl

theorem countP_filter_isSome (resp : List (String × ℚ)) (rows : List Row) (pb : Row → Bool)
    (hnone : ∀ r, nivel resp r = none → pb r = false) :
    (rows.filter (fun r => (nivel resp r).isSome)).countP pb = rows.countP pb := by
  rw [List.countP_filter]
  refine List.countP_congr (fun r _ => ?_)
  cases h : nivel resp r with
  | none => simp [hnone r h]
  | some v => simp [h]

theorem ge4_none {resp : List (String × ℚ)} {r : Row} (h : nivel resp r = none) :
    ge4 resp r = false := by
  simp [ge4, h]

theorem le2_none {resp : List (String × ℚ)} {r : Row} (h : nivel resp r = none) :
    le2 resp r = false := by
  simp [le2, h]

/-- Counterexample to C9: a rated row (rating 5) plus an unrated
null-pillar row; the code's KPI divides by all rows, yielding 1/2,
while the fraction among rated rows is 1. -/
theorem C9_counterexample :
    frac_ge4 [⟨some "P", "A", "", "", 1⟩, ⟨none, "B", "", "", 1⟩] [("P::A", 5)] =
      some (1 / 2) ∧
    specFracGe4 [⟨some "P", "A", "", "", 1⟩, ⟨none, "B", "", "", 1⟩] [("P::A", 5)] = some 1 ∧
    frac_ge4 [⟨some "P", "A", "", "", 1⟩, ⟨none, "B", "", "", 1⟩] [("P::A", 5)] ≠
      specFracGe4 [⟨some "P", "A", "", "", 1⟩, ⟨none, "B", "", "", 1⟩] [("P::A", 5)] := by
  have h1 : frac_ge4 [⟨some "P", "A", "", "", 1⟩, ⟨none, "B", "", "", 1⟩] [("P::A", 5)] =
      some (1 / 2) := by
    have hc : List.countP (ge4 [("P::A", 5)])
        [(⟨some "P", "A", "", "", 1⟩ : Row), ⟨none, "B", "", "", 1⟩] = 1 := by decide
    rw [frac_ge4, if_neg (by simp), hc]
    norm_num
  have h2 : specFracGe4 [⟨some "P", "A", "", "", 1⟩, ⟨none, "B", "", "", 1⟩] [("P::A", 5)] =
      some 1 := by
    have hr : List.filter (fun r => (nivel [("P::A", 5)] r).isSome)
        [(⟨some "P", "A", "", "", 1⟩ : Row), ⟨none, "B", "", "", 1⟩] =
        [⟨some "P", "A", "", "", 1⟩] := by decide
    have hc : List.countP (ge4 [("P::A", 5)]) [(⟨some "P", "A", "", "", 1⟩ : Row)] = 1 := by
      decide
    norm_num [specFracGe4, hr, hc]
  refine ⟨h1, h2, ?_⟩
  rw [h1, h2]
  norm_num

/-- C9 (amended): the two KPI fractions divide by the number of ALL
rows — an unrated row counts in the denominator and never in the
numerator — and they coincide with the fractions among rated rows
whenever every row is rated. -/
theorem C9_fractions_over_all_rows (rows : List Row) (resp : List (String × ℚ))
    (h : rows ≠ []) :
    frac_ge4 rows resp =
      some (((rows.filter (fun r => (nivel resp r).isSome)).countP (ge4 resp) : ℚ) /
        rows.length) ∧
    frac_le2 rows resp =
      some (((rows.filter (fun r => (nivel resp r).isSome)).countP (le2 resp) : ℚ) /
        rows.length) ∧
    ((∀ r ∈ rows, (nivel resp r).isSome) →
      frac_ge4 rows resp = specFracGe4 rows resp ∧
      frac_le2 rows resp = specFracLe2 rows resp) := by
  have hge := countP_filter_isSome resp rows (ge4 resp) (fun r hr => ge4_none hr)
  have hle := countP_filter_isSome resp rows (le2 resp) (fun r hr => le2_none hr)
  refine ⟨by rw [frac_ge4, if_neg h, hge], by rw [frac_le2, if_neg h, hle], fun hall => ?_⟩
  have hfilt : rows.filter (fun r => (nivel resp r).isSome) = rows :=
    List.filter_eq_self.mpr (fun r hr => hall r hr)
  constructor
  · rw [frac_ge4, if_neg h, specFracGe4]
    simp only [hfilt, if_neg h]
  · rw [frac_le2, if_neg h, specFracLe2]
    simp only [hfilt, if_neg h]

/-- Witness for C9 (amended): two rows, both rated (5 and 1). -/
theorem C9_fractions_over_all_rows_witness :
    frac_ge4 [⟨some "P", "A", "", "", 1⟩, ⟨some "P", "B", "", "", 1⟩]
        [("P::A", 5), ("P::B", 1)] =
      some ((([(⟨some "P", "A", "", "", 1⟩ : Row), ⟨some "P", "B", "", "", 1⟩].filter
          (fun r => (nivel [("P::A", 5), ("P::B", 1)] r).isSome)).countP
            (ge4 [("P::A", 5), ("P::B", 1)]) : ℚ) / 2) ∧
    frac_le2 [⟨some "P", "A", "", "", 1⟩, ⟨some "P", "B", "", "", 1⟩]
        [("P::A", 5), ("P::B", 1)] =
      some ((([(⟨some "P", "A", "", "", 1⟩ : Row), ⟨some "P", "B", "", "", 1⟩].filter
          (fun r => (nivel [("P::A", 5), ("P::B", 1)] r).isSome)).countP
            (le2 [("P::A", 5), ("P::B", 1)]) : ℚ) / 2) ∧
    frac_ge4 [⟨some "P", "A", "", "", 1⟩, ⟨some "P", "B", "", "", 1⟩]
        [("P::A", 5), ("P::B", 1)] =
      specFracGe4 [⟨some "P", "A", "", "", 1⟩, ⟨some "P", "B", "", "", 1⟩]
        [("P::A", 5), ("P::B", 1)] ∧
    frac_le2 [⟨some "P", "A", "", "", 1⟩, ⟨some "P", "B", "", "", 1⟩]
        [("P::A", 5), ("P::B", 1)] =
      specFracLe2 [⟨some "P", "A", "", "", 1⟩, ⟨some "P", "B", "", "", 1⟩]
        [("P::A", 5), ("P::B", 1)] := by
  have h := C9_fractions_over_all_rows
    [⟨some "P", "A", "", "", 1⟩, ⟨some "P", "B", "", "", 1⟩]
    [("P::A", 5), ("P::B", 1)] (by simp)
  have hall := h.2.2 (by decide)
  exact ⟨h.1, h.2.1, hall.1, hall.2⟩

theorem colon_split_eq {a b x y : List Char} (ha : ':' ∉ a) (hx : ':' ∉ x)
    (h : a ++ ':' :: b = x ++ ':' :: y) : a = x ∧ b = y := by
  induction a generalizing x with
  | nil =>
      cases x with
      | nil =>
          simp only [List.nil_append, List.cons.injEq] at h
          exact ⟨rfl, h.2⟩
      | cons d x' =>
          simp only [List.nil_append, List.cons_append, List.cons.injEq] at h
          exact absurd (by rw [← h.1]; exact List.mem_cons_self ':' x') hx
  | cons c a' ih =>
      cases x with
      | nil =>
          simp only [List.cons_append, List.nil_append, List.cons.injEq] at h
          exact absurd (by rw [h.1]; exact List.mem_cons_self ':' a') ha
      | cons d x' =>
          simp only [List.cons_append, List.cons.injEq] at h
          have ha' : ':' ∉ a' := fun hm => ha (List.mem_cons_of_mem _ hm)
          have hx' : ':' ∉ x' := fun hm => hx (List.mem_cons_of_mem _ hm)
          rcases ih ha' hx' h.2 with ⟨h1, h2⟩
          exact ⟨by rw [h.1, h1], h2⟩

theorem key_parts_eq {p c p₀ c₀ : String} (hp : ':' ∉ p.data) (hp₀ : ':' ∉ p₀.data)
    (h : p ++ "::" ++ c = p₀ ++ "::" ++ c₀) : p = p₀ ∧ c = c₀ := by
  have hd := congrArg String.data h
  simp only [String.data_append] at hd
  have hd' : p.data ++ ':' :: (':' :: c.data) = p₀.data ++ ':' :: (':' :: c₀.data) := by
    simpa [List.append_assoc] using hd
  rcases colon_split_eq hp hp₀ hd' with ⟨h1, h2⟩
  simp only [List.cons.injEq, true_and] at h2
  exact ⟨String.ext h1, String.ext h2⟩

theorem mem_formRows {rows : List Row} {r : Row} (h : r ∈ formRows rows) :
    r ∈ rows ∧ ∃ p, r.pillar = some p := by
  rcases List.mem_flatMap.mp h with ⟨p, _, hr⟩
  rcases List.mem_filter.mp hr with ⟨hmem, hcond⟩
  exact ⟨hmem, p, by simpa using hcond⟩

/-- Counterexample to C10: adding a null-pillar row of positive weight
(5) to a base whose weighted sum is zero leaves the global level at 0;
it is not strictly lowered. -/
theorem C10_counterexample :
    (⟨none, "A", "", "", 5⟩ : Row).pillar = none ∧
    (0 : ℚ) < (⟨none, "A", "", "", 5⟩ : Row).peso ∧
    nivel_global [⟨none, "A", "", "", 5⟩, ⟨none, "B", "", "", 1⟩] [] = some 0 ∧
    nivel_global [⟨none, "B", "", "", 1⟩] [] = some 0 ∧
    ¬ ∃ g g₀,
        nivel_global [⟨none, "A", "", "", 5⟩, ⟨none, "B", "", "", 1⟩] [] = some g ∧
        nivel_global [⟨none, "B", "", "", 1⟩] [] = some g₀ ∧ g < g₀ := by
  have h1 : nivel_global [(⟨none, "A", "", "", 5⟩ : Row), ⟨none, "B", "", "", 1⟩] [] =
      some 0 := by
    have hs : soma_pesos [(⟨none, "A", "", "", 5⟩ : Row), ⟨none, "B", "", "", 1⟩] ≠ 0 := by
      norm_num [soma_pesos]
    rw [nivel_global, if_neg hs, nansum_pontuacao_nil_resp, zero_div]
  have h2 : nivel_global [(⟨none, "B", "", "", 1⟩ : Row)] [] = some 0 := by
    have hs : soma_pesos [(⟨none, "B", "", "", 1⟩ : Row)] ≠ 0 := by
      norm_num [soma_pesos]
    rw [nivel_global, if_neg hs, nansum_pontuacao_nil_resp, zero_div]
  refine ⟨rfl, by norm_num, h1, h2, ?_⟩
  rintro ⟨g, g₀, hg, hg₀, hlt⟩
  rw [h1, Option.some.injEq] at hg
  rw [h2, Option.some.injEq] at hg₀
  rw [← hg, ← hg₀] at hlt
  exact lt_irrefl 0 hlt

/-- C10 (amended): a null-pillar row is excluded from the rendered form
(and, when no pillar renders as the literal string "nan" and pillar
names are colon-free, its key is absent from the form-built rating
mapping), it belongs to no pillar group so every pillar aggregate is
unchanged by it, yet its weight enters the global denominator; it
strictly lowers the global level whenever its weight is positive, it is
unrated, and the remaining rows have positive total weight and positive
weighted sum. -/
theorem C10_null_pillar_row (rows : List Row) (resp : List (String × ℚ)) (r₀ : Row)
    (hp : r₀.pillar = none) :
    r₀ ∉ formRows (r₀ :: rows) ∧
    (∀ slider : Row → ℚ,
      (∀ r ∈ r₀ :: rows, ∀ p, r.pillar = some p → p ≠ "nan" ∧ ':' ∉ p.data) →
      nivel (formResp (r₀ :: rows) slider) r₀ = none) ∧
    (∀ p, r₀ ∉ rowsOfPillar (r₀ :: rows) p) ∧
    (∀ p, media (r₀ :: rows) resp p = media rows resp p ∧
      pesoPilar (r₀ :: rows) p = pesoPilar rows p ∧
      pontuacaoPilar (r₀ :: rows) resp p = pontuacaoPilar rows resp p ∧
      itens (r₀ :: rows) resp p = itens rows resp p) ∧
    soma_pesos (r₀ :: rows) = r₀.peso + soma_pesos rows ∧
    (getResp resp (keyOf r₀) = none → 0 < r₀.peso → 0 < soma_pesos rows →
      0 < nansum_pontuacao rows resp →
      ∃ g g₀, nivel_global (r₀ :: rows) resp = some g ∧
        nivel_global rows resp = some g₀ ∧ g < g₀) := by
  have hrp : ∀ p, rowsOfPillar (r₀ :: rows) p = rowsOfPillar rows p := by
    intro p
    simp [rowsOfPillar, List.filter_cons, hp]
  refine ⟨?_, ?_, ?_, ?_, by simp [soma_pesos], ?_⟩
  · intro h
    rcases (mem_formRows h).2 with ⟨p, hpp⟩
    rw [hp] at hpp
    cases hpp
  · intro slider hnames
    have hfind : List.find? (fun kv => kv.1 = keyOf r₀)
        ((formRows (r₀ :: rows)).map (fun r => (keyOf r, slider r))) = none := by
      rw [List.find?_eq_none]
      intro kv hkv
      rcases List.mem_map.mp hkv with ⟨r, hr, rfl⟩
      simp only [decide_eq_true_eq]
      intro hkey
      rcases mem_formRows hr with ⟨hmem, p, hpil⟩
      rcases hnames r hmem p hpil with ⟨hnan, hcol⟩
      have hk : p ++ "::" ++ r.code = "nan" ++ "::" ++ r₀.code := by
        have e1 : keyOf r = p ++ "::" ++ r.code := by rw [keyOf, hpil]; rfl
        have e2 : keyOf r₀ = "nan" ++ "::" ++ r₀.code := by rw [keyOf, hp]; rfl
        rw [← e1, ← e2, hkey]
      have hc₀ : ':' ∉ ("nan" : String).data := by decide
      exact hnan (key_parts_eq hcol hc₀ hk).1
    show getResp (formResp (r₀ :: rows) slider) (keyOf r₀) = none
    rw [getResp, formResp, hfind]
    rfl
  · intro p h
    have := List.mem_filter.mp h
    rw [hp] at this
    simpa using this.2
  · intro p
    refine ⟨?_, ?_, ?_, ?_⟩ <;> simp [media, pesoPilar, pontuacaoPilar, itens, hrp]
  · intro hresp hw hD hN
    have hn : nivel resp r₀ = none := hresp
    have hnum : nansum_pontuacao (r₀ :: rows) resp = nansum_pontuacao rows resp := by
      simp [nansum_pontuacao, pontuacao, hn]
    have hsoma : soma_pesos (r₀ :: rows) = r₀.peso + soma_pesos rows := by
      simp [soma_pesos]
    have hD' : (0 : ℚ) < soma_pesos (r₀ :: rows) := by
      rw [hsoma]
      linarith
    refine ⟨nansum_pontuacao rows resp / soma_pesos (r₀ :: rows),
      nansum_pontuacao rows resp / soma_pesos rows, ?_, ?_, ?_⟩
    · rw [nivel_global, if_neg (ne_of_gt hD'), hnum]
    · rw [nivel_global, if_neg (ne_of_gt hD)]
    · have hlt : soma_pesos rows < soma_pesos (r₀ :: rows) := by
        rw [hsoma]
        linarith
      exact div_lt_div_of_pos_left hN hD hlt

/-- Witness for C10 (amended): base row (pillar "P", code "A", weight
10, rating 4) plus a null-pillar row of weight 1; the global level
drops from 4 to 40/11. -/
theorem C10_null_pillar_row_witness :
    (⟨none, "Z", "", "", 1⟩ : Row) ∉
      formRows [⟨none, "Z", "", "", 1⟩, ⟨some "P", "A", "", "", 10⟩] ∧
    nivel (formResp [(⟨none, "Z", "", "", 1⟩ : Row), ⟨some "P", "A", "", "", 10⟩]
        (fun _ => 3)) ⟨none, "Z", "", "", 1⟩ = none ∧
    (∃ g g₀,
      nivel_global [(⟨none, "Z", "", "", 1⟩ : Row), ⟨some "P", "A", "", "", 10⟩]
          [("P::A", 4)] = some g ∧
      nivel_global [(⟨some "P", "A", "", "", 10⟩ : Row)] [("P::A", 4)] = some g₀ ∧
      g < g₀) := by
  have h := C10_null_pillar_row [⟨some "P", "A", "", "", 10⟩] [("P::A", 4)]
    ⟨none, "Z", "", "", 1⟩ rfl
  have hn : nivel [("P::A", 4)] (⟨some "P", "A", "", "", 10⟩ : Row) = some 4 := rfl
  refine ⟨h.1, h.2.1 (fun _ => 3) (by decide), ?_⟩
  refine h.2.2.2.2.2 rfl (by norm_num) (by norm_num [soma_pesos]) ?_
  rw [show nansum_pontuacao [(⟨some "P", "A", "", "", 10⟩ : Row)] [("P::A", 4)] =
    (4 : ℚ) * 10 + 0 from by rw [nansum_pontuacao]; simp [pontuacao, hn]]
  norm_num

end NP4427
